import Mathlib

/-!
# Chucky-Egg-Clone: input handling, simulation tick, frame limiter, teardown

A shallow embedding of `src/main.cpp` and `src/TextBox.cpp`.

* The globals `done`, `movingLeft`, `movingRight` are the record `Globals`;
  `handleInput` is a left fold of the body of the outer `switch` over the
  events that `SDL_PollEvent` hands out during one call.
* `SpriteHandler` and SDL_mixer are outside the two source files, so
  `updateSimulation` is embedded as the sequence of calls it issues to them
  (`SimCall`), in program order.
* `fpsLimiter` is embedded on the millisecond count `dt`, with the 64-bit
  subtraction and the narrowing to `int` made explicit.
* `TextBox` is embedded over a small model of the renderer's texture table.
* `main` and `cleanExit` are embedded as the sequence of library calls that
  acquire and release resources (`SysCall`).
-/

namespace ChuckyEgg

/-! ## SDL constants -/

/-- Value of `SDL_QUIT` in `SDL_events.h`. -/
def SDL_QUIT : Nat := 0x100
/-- Value of `SDL_KEYDOWN` in `SDL_events.h`. -/
def SDL_KEYDOWN : Nat := 0x300
/-- Value of `SDL_KEYUP` in `SDL_events.h`. -/
def SDL_KEYUP : Nat := 0x301
/-- Key code of Escape in `SDL_keycode.h`. -/
def SDLK_ESCAPE : Int := 27
/-- Key code of the letter d. -/
def SDLK_d : Int := 100
/-- Key code of the letter a. -/
def SDLK_a : Int := 97

/-- The fields of `SDL_Event` that `handleInput` reads: `event.type`,
`event.key.repeat` and `event.key.keysym.sym`. -/
structure SDL_Event where
  type : Nat
  key_repeat : Nat
  key_sym : Int
deriving DecidableEq, Repr

/-- The three global flags written by `handleInput` (main.cpp lines 11, 21, 22). -/
structure Globals where
  done : Bool
  movingLeft : Bool
  movingRight : Bool
deriving DecidableEq, Repr

/-- Initial values of the globals: all `false`. -/
def Globals.init : Globals := ⟨false, false, false⟩

/-! ## handleInput (main.cpp lines 29-89) -/

/-- The `case SDLK_d:` arm of the key-down switch (lines 65-67). -/
def keyDownCaseD (g : Globals) : Globals := { g with movingRight := true }

/-- The `case SDLK_a:` arm of the key-down switch (lines 69-71). -/
def keyDownCaseA (g : Globals) : Globals := { g with movingLeft := true }

/-- The inner switch of the key-down case (lines 60-72). The Escape arm has no
`break`, so control continues into the `SDLK_d` arm. -/
def keyDownSwitch (g : Globals) (sym : Int) : Globals :=
  if sym = SDLK_ESCAPE then keyDownCaseD { g with done := true }
  else if sym = SDLK_d then keyDownCaseD g
  else if sym = SDLK_a then keyDownCaseA g
  else g

/-- The inner switch of the key-up case (lines 76-85). -/
def keyUpSwitch (g : Globals) (sym : Int) : Globals :=
  if sym = SDLK_d then { g with movingRight := false }
  else if sym = SDLK_a then { g with movingLeft := false }
  else g

/-- The body of the polling loop: the outer `switch (event.type)` (lines 46-87). -/
def handleEvent (g : Globals) (e : SDL_Event) : Globals :=
  if e.type = SDL_QUIT then { g with done := true }
  else if e.type = SDL_KEYDOWN then
    (if e.key_repeat = 0 then keyDownSwitch g e.key_sym else g)
  else if e.type = SDL_KEYUP then keyUpSwitch g e.key_sym
  else g

/-- One call of `handleInput`: the loop `while (SDL_PollEvent(&event))` run over
the events queued for this call, oldest first. -/
def handleInput (g : Globals) (events : List SDL_Event) : Globals :=
  events.foldl handleEvent g

/-- Events that leave `movingRight` set: a non-repeat key-down of d, or of
Escape, whose arm runs on into the d arm. -/
def raisesRight (e : SDL_Event) : Prop :=
  e.type = SDL_KEYDOWN ∧ e.key_repeat = 0 ∧ (e.key_sym = SDLK_ESCAPE ∨ e.key_sym = SDLK_d)

/-- Events that leave `movingLeft` set: a non-repeat key-down of a. -/
def raisesLeft (e : SDL_Event) : Prop :=
  e.type = SDL_KEYDOWN ∧ e.key_repeat = 0 ∧ e.key_sym = SDLK_a

instance (e : SDL_Event) : Decidable (raisesRight e) := by
  unfold raisesRight; infer_instance

instance (e : SDL_Event) : Decidable (raisesLeft e) := by
  unfold raisesLeft; infer_instance

/-! ## updateSimulation (main.cpp lines 93-122) -/

/-- Calls issued by `updateSimulation` to `SpriteHandler` objects (with the index
of the sprite in `spriteList`) and to SDL_mixer. -/
inductive SimCall where
  | gravity (sprite : Nat)
  | animateSprite (sprite : Nat) (a b c : Int) (looping : Bool)
  | moveSprite (sprite : Nat) (dx dy : Int)
  | setIdle (sprite : Nat)
  | Mix_Playing (channel : Int)
  | Mix_PlayChannel (channel : Int) (loops : Int)
  | Mix_HaltChannel (channel : Int)
deriving DecidableEq, Repr

/-- Running state of one tick: the calls issued so far and whether mixer
channel 1 is playing. -/
structure Sim where
  trace : List SimCall
  playing : Bool
deriving DecidableEq, Repr

/-- Append one call to the trace. -/
def Sim.emit (s : Sim) (c : SimCall) : Sim := { s with trace := s.trace ++ [c] }

/-- Return value of `Mix_Playing(1)`: 1 when the channel is playing, else 0. -/
def mixPlayingResult (s : Sim) : Int := if s.playing then 1 else 0

/-- The statement `if (Mix_Playing(1) != 1) Mix_PlayChannel(1, walkSound, 0);`
(lines 106-107 and 113-114). -/
def startWalkSound (s : Sim) : Sim :=
  let s1 := s.emit (.Mix_Playing 1)
  if mixPlayingResult s ≠ 1 then
    { (s1.emit (.Mix_PlayChannel 1 0)) with playing := true }
  else s1

/-- Condition of the first `if` (line 103). -/
def condLeft (g : Globals) : Bool := g.movingLeft && !g.movingRight

/-- Condition of the second `if` (line 110). -/
def condRight (g : Globals) : Bool := g.movingRight && !g.movingLeft

/-- Condition of the third `if` (line 117). -/
def condIdle (g : Globals) : Bool :=
  (!g.movingRight && !g.movingLeft) || (g.movingLeft && g.movingRight)

/-- The range-for over `spriteList` (lines 95-98). -/
def gravityLoop (sprites : Nat) : List SimCall :=
  (List.range sprites).map SimCall.gravity

/-- One call of `updateSimulation` with `sprites` entries in `spriteList`, the
global `playerSpeed`, the flags `g`, and channel 1 playing or not on entry.
`spriteList[0]` on an empty vector is undefined behaviour: `none`. -/
def updateSimulation (sprites : Nat) (playerSpeed : Int) (g : Globals)
    (playing : Bool) : Option Sim :=
  if sprites = 0 then none
  else
    let s0 : Sim := ⟨gravityLoop sprites, playing⟩
    let s1 := s0.emit (.animateSprite 0 6 5 30 true)
    let s2 := if condLeft g then
        startWalkSound (s1.emit (.moveSprite 0 (-playerSpeed) 0))
      else s1
    let s3 := if condRight g then
        startWalkSound (s2.emit (.moveSprite 0 playerSpeed 0))
      else s2
    let s4 := if condIdle g then
        { ((s3.emit (.setIdle 0)).emit (.Mix_HaltChannel 1)) with playing := false }
      else s3
    some s4

/-- The sprite a call is addressed to, if it is a `SpriteHandler` call. -/
def SimCall.target : SimCall → Option Nat
  | .gravity i => some i
  | .animateSprite i _ _ _ _ => some i
  | .moveSprite i _ _ => some i
  | .setIdle i => some i
  | _ => none

/-- Whether a call is `gravity`. -/
def SimCall.isGravity : SimCall → Bool
  | .gravity _ => true
  | _ => false

/-- Whether a call is `moveSprite`. -/
def SimCall.isMove : SimCall → Bool
  | .moveSprite _ _ _ => true
  | _ => false

/-- Whether a call is `setIdle`. -/
def SimCall.isSetIdle : SimCall → Bool
  | .setIdle _ => true
  | _ => false

/-- Whether a call is a movement or animation call (`animateSprite`,
`moveSprite`, `setIdle`). -/
def SimCall.isMoveOrAnim : SimCall → Bool
  | .animateSprite _ _ _ _ _ => true
  | .moveSprite _ _ _ => true
  | .setIdle _ => true
  | _ => false

/-- Whether a call starts the footstep sound on channel 1. -/
def SimCall.isStart : SimCall → Bool
  | .Mix_PlayChannel 1 _ => true
  | _ => false

/-- Whether a call halts channel 1. -/
def SimCall.isHalt : SimCall → Bool
  | .Mix_HaltChannel 1 => true
  | _ => false

/-! ## The frame loop of main (main.cpp lines 308-319) -/

/-- The four calls of one loop iteration. `handleInput` carries the events it
polled, `updateSimulation` the flags it ran with. -/
inductive LoopCall where
  | handleInput (events : List SDL_Event)
  | updateSimulation (g : Globals)
  | render
  | fpsLimiter
deriving DecidableEq, Repr

/-- The loop `while (!done) { handleInput(); updateSimulation(); render();
fpsLimiter(time); }`. `poll i` is what the event queue holds when iteration
`i` polls it. Only `handleInput` writes the three flags. The result is the
sequence of calls made and the flags on leaving the loop; `none` when `fuel`
iterations did not reach `done`. -/
def mainLoop (poll : Nat → List SDL_Event) :
    Nat → Nat → Globals → Option (List LoopCall × Globals)
  | fuel, iter, g =>
    if g.done then some ([], g)
    else match fuel with
      | 0 => none
      | fuel + 1 =>
        let g1 := handleInput g (poll iter)
        match mainLoop poll fuel (iter + 1) g1 with
        | none => none
        | some (calls, g2) =>
          some ([.handleInput (poll iter), .updateSimulation g1, .render,
                 .fpsLimiter] ++ calls, g2)

/-! ## fpsLimiter (main.cpp lines 163-172) -/

/-- Two's-complement value of `x` in a signed integer type of `bits` bits. -/
def wrapSigned (bits : Nat) (x : Int) : Int :=
  (x + 2 ^ (bits - 1)) % 2 ^ bits - 2 ^ (bits - 1)

/-- The value `fpsLimiter` passes to `SDL_Delay`, as a function of the
millisecond count `dt`: `16 - dt` in the 64-bit type of `dt`, narrowed to
`int`, replaced by 0 when negative, converted to the `Uint32` parameter. -/
def fpsLimiter (dt : Int) : Int :=
  let diff := wrapSigned 64 (16 - dt)
  let timeToWait := wrapSigned 32 diff
  let timeToWait := if timeToWait < 0 then 0 else timeToWait
  timeToWait % 2 ^ 32

/-! ## TextBox (TextBox.cpp) -/

/-- Texture table of the renderer: the next handle it will hand out and the
textures currently alive. -/
structure Renderer where
  next : Nat
  live : List Nat
deriving DecidableEq, Repr

/-- The texture-related members of `TextBox`: `_theString` and
`_messageTexture` (`none` is `nullptr`). -/
structure TextBox where
  theString : String
  messageTexture : Option Nat
deriving DecidableEq, Repr

/-- The pair `TTF_RenderText_Solid` / `SDL_CreateTextureFromSurface`: on success
a fresh live texture, on failure `nullptr` and no texture. -/
def SDL_CreateTextureFromSurface (ok : Bool) (r : Renderer) : Option Nat × Renderer :=
  if ok then (some r.next, ⟨r.next + 1, r.next :: r.live⟩) else (none, r)

/-- The call `SDL_DestroyTexture`: does nothing on `nullptr`. -/
def SDL_DestroyTexture (t : Option Nat) (r : Renderer) : Renderer :=
  match t with
  | none => r
  | some h => { r with live := r.live.erase h }

/-- The four-argument constructor (lines 10-24). -/
def TextBox.mk4 (theString : String) (ok : Bool) (r : Renderer) : TextBox × Renderer :=
  let (tex, r1) := SDL_CreateTextureFromSurface ok r
  (⟨theString, tex⟩, r1)

/-- Renderer state inside `setText` after line 38, before the new texture is made. -/
def TextBox.setTextMid (tb : TextBox) (r : Renderer) : Renderer :=
  SDL_DestroyTexture tb.messageTexture r

/-- The method `setText` (lines 36-45). -/
def TextBox.setText (tb : TextBox) (newText : String) (ok : Bool) (r : Renderer) :
    TextBox × Renderer :=
  let r1 := SDL_DestroyTexture tb.messageTexture r
  let (tex, r2) := SDL_CreateTextureFromSurface ok r1
  (⟨newText, tex⟩, r2)

/-- Points in a label's life at which the texture table is observed. -/
inductive Point where
  | constructed
  | destroyed
  | recreated
deriving DecidableEq, Repr

/-- Every renderer state passed through by a sequence of `setText` calls: for
each call the state after the destroy (line 38) and the state after the create
(line 42). -/
def setTextHistory : TextBox → Renderer → List (String × Bool) → List (Point × Renderer)
  | _, _, [] => []
  | tb, r, (s, ok) :: rest =>
    let mid := tb.setTextMid r
    let (tb1, r1) := tb.setText s ok r
    (Point.destroyed, mid) :: (Point.recreated, r1) :: setTextHistory tb1 r1 rest

/-- Every renderer state of a label's life: after the constructor, then through
each `setText`. Each call carries its new text and whether the texture
creation succeeds. -/
def textBoxHistory (r0 : Renderer) (s0 : String) (ok0 : Bool)
    (calls : List (String × Bool)) : List (Point × Renderer) :=
  let (tb, r) := TextBox.mk4 s0 ok0 r0
  (Point.constructed, r) :: setTextHistory tb r calls

/-- Textures alive in `r` that were created after the table stood at `base`,
that is, by the label built from that point. -/
def ownedLive (base : Nat) (r : Renderer) : List Nat :=
  r.live.filter (fun h => decide (base ≤ h))

/-- Well-formed texture table: every live handle was handed out already. -/
def Renderer.wf (r : Renderer) : Prop := ∀ h ∈ r.live, h < r.next

/-! ## main and cleanExit (main.cpp lines 145-161, 175-322) -/

/-- The resources named in the teardown claim, and the TTF subsystem. -/
inductive Res where
  | sdl | audio | window | renderer | ttf | font | music | chunk
deriving DecidableEq, Repr

/-- Library calls of `main` and `cleanExit` that acquire or release a resource.
Acquiring calls carry whether they succeeded, `Mix_FreeChunk` and
`Mix_FreeMusic` whether their argument was non-null. -/
inductive SysCall where
  | SDL_Init (ok : Bool)
  | Mix_OpenAudio (ok : Bool)
  | SDL_CreateWindow (ok : Bool)
  | SDL_CreateRenderer (ok : Bool)
  | TTF_Init (ok : Bool)
  | TTF_OpenFont (ok : Bool)
  | Mix_LoadMUS (ok : Bool)
  | Mix_LoadWAV (ok : Bool)
  | SDL_DestroyRenderer
  | SDL_DestroyWindow
  | Mix_FreeChunk (nonNull : Bool)
  | Mix_FreeMusic (nonNull : Bool)
  | Mix_Quit
  | SDL_Quit
  | exit (code : Int)
deriving DecidableEq, Repr

/-- Whether each of the globals `win`, `ren`, `bgMusic`, `walkSound` is non-null.
The font pointer `theFont` is a local of `main` and is not visible to
`cleanExit`. -/
structure Handles where
  win : Bool
  ren : Bool
  bgMusic : Bool
  walkSound : Bool
deriving DecidableEq, Repr

/-- Outcome of each fallible start-up call of `main`, in program order. -/
structure Startup where
  sdlInit : Bool
  openAudio : Bool
  createWindow : Bool
  createRenderer : Bool
  ttfInit : Bool
  openFont : Bool
  loadMUS : Bool
  loadWAV : Bool
deriving DecidableEq, Repr

/-- The function `cleanExit` (lines 145-161). -/
def cleanExit (h : Handles) (returnValue : Int) : List SysCall :=
  (if h.ren then [SysCall.SDL_DestroyRenderer] else []) ++
  (if h.win then [SysCall.SDL_DestroyWindow] else []) ++
  [.Mix_FreeChunk h.walkSound, .Mix_FreeMusic h.bgMusic, .Mix_Quit, .SDL_Quit,
   .exit returnValue]

/-- The resource calls of `main`, for given start-up outcomes. Each failed call
goes to `cleanExit(1)`, which does not return; the frame loop (no resource
call) is followed by `cleanExit(0)`. -/
def main (o : Startup) : List SysCall :=
  let h : Handles := ⟨false, false, false, false⟩
  let t := [SysCall.SDL_Init o.sdlInit]
  if !o.sdlInit then t ++ cleanExit h 1 else
  let t := t ++ [.Mix_OpenAudio o.openAudio]
  if !o.openAudio then t ++ cleanExit h 1 else
  let t := t ++ [.SDL_CreateWindow o.createWindow]
  let h := { h with win := o.createWindow }
  if !o.createWindow then t ++ cleanExit h 1 else
  let t := t ++ [.SDL_CreateRenderer o.createRenderer]
  let h := { h with ren := o.createRenderer }
  if !o.createRenderer then t ++ cleanExit h 1 else
  let t := t ++ [.TTF_Init o.ttfInit]
  if !o.ttfInit then t ++ cleanExit h 1 else
  let t := t ++ [.TTF_OpenFont o.openFont]
  if !o.openFont then t ++ cleanExit h 1 else
  let t := t ++ [.Mix_LoadMUS o.loadMUS]
  let h := { h with bgMusic := o.loadMUS }
  if !o.loadMUS then t ++ cleanExit h 1 else
  let t := t ++ [.Mix_LoadWAV o.loadWAV]
  let h := { h with walkSound := o.loadWAV }
  if !o.loadWAV then t ++ cleanExit h 1 else
  t ++ cleanExit h 0

/-- The resource a call acquires, if any. -/
def SysCall.acquires : SysCall → Option Res
  | .SDL_Init true => some .sdl
  | .Mix_OpenAudio true => some .audio
  | .SDL_CreateWindow true => some .window
  | .SDL_CreateRenderer true => some .renderer
  | .TTF_Init true => some .ttf
  | .TTF_OpenFont true => some .font
  | .Mix_LoadMUS true => some .music
  | .Mix_LoadWAV true => some .chunk
  | _ => none

/-- The resource a call releases, if any. `Mix_Quit` is taken as the release of
the audio subsystem and `SDL_Quit` as that of SDL; freeing a null chunk or
music releases nothing. -/
def SysCall.releases : SysCall → Option Res
  | .SDL_DestroyRenderer => some .renderer
  | .SDL_DestroyWindow => some .window
  | .Mix_FreeChunk true => some .chunk
  | .Mix_FreeMusic true => some .music
  | .Mix_Quit => some .audio
  | .SDL_Quit => some .sdl
  | _ => none

/-- Resources acquired along a trace, in order. -/
def acquired (t : List SysCall) : List Res := t.filterMap SysCall.acquires

/-- Resources released along a trace, in order. -/
def released (t : List SysCall) : List Res := t.filterMap SysCall.releases

/-- Start-up in which every call succeeds. -/
def Startup.allOk : Startup := ⟨true, true, true, true, true, true, true, true⟩

/-! ## Lemmas on the gravity loop and the shape of one tick -/

theorem gravityLoop_filter_isMoveOrAnim (n : Nat) :
    (gravityLoop n).filter SimCall.isMoveOrAnim = [] := by
  simp [gravityLoop, List.filter_eq_nil_iff, SimCall.isMoveOrAnim]

theorem gravityLoop_filter_isGravity (n : Nat) :
    (gravityLoop n).filter SimCall.isGravity = gravityLoop n := by
  simp [gravityLoop, List.filter_eq_self, SimCall.isGravity]

theorem gravityLoop_any_isStart (n : Nat) :
    (gravityLoop n).any SimCall.isStart = false := by
  simp [gravityLoop, SimCall.isStart]

theorem gravityLoop_any_isHalt (n : Nat) :
    (gravityLoop n).any SimCall.isHalt = false := by
  simp [gravityLoop, SimCall.isHalt]

theorem gravityLoop_length (n : Nat) : (gravityLoop n).length = n := by
  simp [gravityLoop]

theorem gravityLoop_nodup (n : Nat) : (gravityLoop n).Nodup := by
  unfold gravityLoop
  refine List.Nodup.map ?_ (List.nodup_range n)
  intro a b h
  cases h
  rfl

theorem gravityLoop_count (n i : Nat) (h : i < n) :
    (gravityLoop n).count (SimCall.gravity i) = 1 := by
  apply List.count_eq_one_of_mem (gravityLoop_nodup n)
  simp [gravityLoop, h]

/-- Closed form of one tick: the gravity loop, `animateSprite`, then the calls
of the branch selected by the flags. -/
theorem updateSimulation_shape (sprites : Nat) (playerSpeed : Int) (g : Globals)
    (playing : Bool) (hs : 0 < sprites) :
    ∃ sim rest, updateSimulation sprites playerSpeed g playing = some sim ∧
      sim.trace = gravityLoop sprites ++ SimCall.animateSprite 0 6 5 30 true :: rest ∧
      rest =
        (if g.movingLeft = g.movingRight then
          [SimCall.setIdle 0, SimCall.Mix_HaltChannel 1]
        else
          [SimCall.moveSprite 0 (if g.movingLeft then -playerSpeed else playerSpeed) 0,
           SimCall.Mix_Playing 1] ++
          (if playing then [] else [SimCall.Mix_PlayChannel 1 0])) := by
  have hne : sprites ≠ 0 := Nat.pos_iff_ne_zero.mp hs
  rcases g with ⟨d, l, r⟩
  cases l <;> cases r <;> cases playing <;>
    simp [updateSimulation, hne, condLeft, condRight, condIdle, startWalkSound,
      Sim.emit, mixPlayingResult]

/-! ## Claims on updateSimulation -/

/-- C1: on a tick with exactly one of `movingLeft` / `movingRight` set (and a
non-empty `spriteList`), `updateSimulation` issues exactly one `moveSprite`
call, to sprite 0, with delta `(-playerSpeed, 0)` when only `movingLeft` is set
and `(playerSpeed, 0)` when only `movingRight` is set; it issues no `setIdle`;
and the movement/animation calls of the tick are `animateSprite(6, 5, 30, true)`
followed by that `moveSprite`. -/
theorem C1_single_intent_moves_player (sprites : Nat) (playerSpeed : Int)
    (g : Globals) (playing : Bool) (hs : 0 < sprites)
    (hx : g.movingLeft ≠ g.movingRight) :
    ∃ sim, updateSimulation sprites playerSpeed g playing = some sim ∧
      sim.trace.filter SimCall.isMove =
        [SimCall.moveSprite 0 (if g.movingLeft then -playerSpeed else playerSpeed) 0] ∧
      (g.movingLeft = true → g.movingRight = false →
        sim.trace.filter SimCall.isMove = [SimCall.moveSprite 0 (-playerSpeed) 0]) ∧
      (g.movingRight = true → g.movingLeft = false →
        sim.trace.filter SimCall.isMove = [SimCall.moveSprite 0 playerSpeed 0]) ∧
      sim.trace.filter SimCall.isSetIdle = [] ∧
      sim.trace.filter SimCall.isMoveOrAnim =
        [SimCall.animateSprite 0 6 5 30 true,
         SimCall.moveSprite 0 (if g.movingLeft then -playerSpeed else playerSpeed) 0] := by
  obtain ⟨sim, rest, hsim, htrace, hrest⟩ :=
    updateSimulation_shape sprites playerSpeed g playing hs
  refine ⟨sim, hsim, ?_⟩
  rw [if_neg hx] at hrest
  subst hrest
  have hmove : sim.trace.filter SimCall.isMove =
      [SimCall.moveSprite 0 (if g.movingLeft then -playerSpeed else playerSpeed) 0] := by
    rw [htrace]
    cases playing <;>
      simp [List.filter_append, List.filter_cons, SimCall.isMove, gravityLoop,
        List.filter_eq_nil_iff]
  refine ⟨hmove, ?_, ?_, ?_, ?_⟩
  · intro hl _
    rw [hmove]; simp [hl]
  · intro _ hl
    rw [hmove]; simp [hl]
  · rw [htrace]
    cases playing <;>
      simp [List.filter_append, List.filter_cons, SimCall.isSetIdle, gravityLoop,
        List.filter_eq_nil_iff]
  · rw [htrace, List.filter_append, gravityLoop_filter_isMoveOrAnim]
    cases playing <;> simp [List.filter_cons, SimCall.isMoveOrAnim]

/-- C1 at a concrete tick: one sprite, speed 10, only `movingLeft` set. -/
theorem C1_single_intent_moves_player_witness :
    (0 < 1 ∧ (Globals.mk false true false).movingLeft ≠
        (Globals.mk false true false).movingRight) ∧
    ∃ sim, updateSimulation 1 10 (Globals.mk false true false) false = some sim ∧
      sim.trace.filter SimCall.isMove = [SimCall.moveSprite 0 (-10) 0] ∧
      sim.trace.filter SimCall.isSetIdle = [] :=
  ⟨⟨by decide, by decide⟩,
    (C1_single_intent_moves_player 1 10 (Globals.mk false true false) false
      (by decide) (by decide)).elim
      (fun sim h => ⟨sim, h.1, h.2.1, h.2.2.2.2.1⟩)⟩

/-- C2: on a tick with both movement intents set or both clear (and a non-empty
`spriteList`), `updateSimulation` issues no `moveSprite` and calls `setIdle` on
sprite 0 as its last sprite call; the whole call sequence is the gravity loop,
`animateSprite`, `setIdle`, `Mix_HaltChannel(1)`, whatever `done`, `playerSpeed`
and the channel state are; and for every value of the flags exactly one of the
three branch conditions (left, right, idle) holds, the idle one exactly when the
two flags are equal. -/
theorem C2_tie_or_no_intent_idles (sprites : Nat) (playerSpeed : Int)
    (g : Globals) (playing : Bool) (hs : 0 < sprites)
    (hx : g.movingLeft = g.movingRight) :
    (∃ sim, updateSimulation sprites playerSpeed g playing = some sim ∧
      sim.trace = gravityLoop sprites ++
        [SimCall.animateSprite 0 6 5 30 true, SimCall.setIdle 0,
         SimCall.Mix_HaltChannel 1] ∧
      sim.trace.filter SimCall.isMove = [] ∧
      sim.trace.filter SimCall.isSetIdle = [SimCall.setIdle 0] ∧
      (sim.trace.filter (fun c => c.target.isSome)).getLast? = some (SimCall.setIdle 0)) ∧
    (∀ g' : Globals,
      (condLeft g' = true ∧ condRight g' = false ∧ condIdle g' = false) ∨
      (condLeft g' = false ∧ condRight g' = true ∧ condIdle g' = false) ∨
      (condLeft g' = false ∧ condRight g' = false ∧ condIdle g' = true)) ∧
    (∀ g' : Globals, condIdle g' = true ↔ g'.movingLeft = g'.movingRight) := by
  refine ⟨?_, ?_, ?_⟩
  · obtain ⟨sim, rest, hsim, htrace, hrest⟩ :=
      updateSimulation_shape sprites playerSpeed g playing hs
    rw [if_pos hx] at hrest
    subst hrest
    refine ⟨sim, hsim, htrace, ?_, ?_, ?_⟩
    · rw [htrace]
      simp [List.filter_append, List.filter_cons, SimCall.isMove, gravityLoop,
        List.filter_eq_nil_iff]
    · rw [htrace]
      simp [List.filter_append, List.filter_cons, SimCall.isSetIdle, gravityLoop,
        List.filter_eq_nil_iff]
    · rw [htrace, List.filter_append]
      simp [List.filter_cons, SimCall.target, List.getLast?_append]
  · rintro ⟨d, l, r⟩
    cases l <;> cases r <;> simp [condLeft, condRight, condIdle]
  · rintro ⟨d, l, r⟩
    cases l <;> cases r <;> simp [condIdle]

/-- C2 at a concrete tick: two sprites, both intents set. -/
theorem C2_tie_or_no_intent_idles_witness :
    (0 < 2 ∧ (Globals.mk false true true).movingLeft =
        (Globals.mk false true true).movingRight) ∧
    ∃ sim, updateSimulation 2 10 (Globals.mk false true true) true = some sim ∧
      sim.trace = gravityLoop 2 ++
        [SimCall.animateSprite 0 6 5 30 true, SimCall.setIdle 0,
         SimCall.Mix_HaltChannel 1] :=
  ⟨⟨by decide, rfl⟩,
    (C2_tie_or_no_intent_idles 2 10 (Globals.mk false true true) true
      (by decide) rfl).1.elim (fun sim h => ⟨sim, h.1, h.2.1⟩)⟩

/-- C7: on every tick with a non-empty `spriteList`, whatever the flags,
`gravity` is called exactly once on each sprite of the list and on nothing
else; the gravity calls form the prefix of the tick's calls, the rest starts
with `animateSprite` and holds no gravity call; and every movement/animation
call (`animateSprite`, `moveSprite`, `setIdle`) is addressed to sprite 0. -/
theorem C7_gravity_all_then_player_only (sprites : Nat) (playerSpeed : Int)
    (g : Globals) (playing : Bool) (hs : 0 < sprites) :
    ∃ sim rest, updateSimulation sprites playerSpeed g playing = some sim ∧
      sim.trace = gravityLoop sprites ++ rest ∧
      (∀ i, i < sprites → sim.trace.count (SimCall.gravity i) = 1) ∧
      (sim.trace.filter SimCall.isGravity).length = sprites ∧
      (∀ c ∈ gravityLoop sprites, c.isGravity = true ∧ c.isMoveOrAnim = false) ∧
      (∀ c ∈ rest, c.isGravity = false) ∧
      rest.head? = some (SimCall.animateSprite 0 6 5 30 true) ∧
      (∀ c ∈ sim.trace, c.isMoveOrAnim = true → c.target = some 0) := by
  obtain ⟨sim, rest, hsim, htrace, hrest⟩ :=
    updateSimulation_shape sprites playerSpeed g playing hs
  have hnog : ∀ c ∈ SimCall.animateSprite 0 6 5 30 true :: rest, c.isGravity = false := by
    subst hrest
    split_ifs <;> cases playing <;> simp [SimCall.isGravity]
  refine ⟨sim, _, hsim, htrace, ?_, ?_, ?_, hnog, rfl, ?_⟩
  · intro i hi
    rw [htrace, List.count_append, gravityLoop_count sprites i hi]
    have : (SimCall.animateSprite 0 6 5 30 true :: rest).count (SimCall.gravity i) = 0 := by
      rw [List.count_eq_zero]
      intro hmem
      have := hnog _ hmem
      simp [SimCall.isGravity] at this
    omega
  · rw [htrace, List.filter_append, gravityLoop_filter_isGravity, List.length_append,
      gravityLoop_length]
    have : (SimCall.animateSprite 0 6 5 30 true :: rest).filter SimCall.isGravity = [] := by
      rw [List.filter_eq_nil_iff]
      intro c hc
      simp [hnog c hc]
    rw [this]; rfl
  · intro c hc
    simp only [gravityLoop, List.mem_map] at hc
    obtain ⟨i, _, rfl⟩ := hc
    exact ⟨rfl, rfl⟩
  · have htail : ∀ c ∈ SimCall.animateSprite 0 6 5 30 true :: rest,
        c.isMoveOrAnim = true → c.target = some 0 := by
      subst hrest
      split_ifs <;> cases playing <;> simp [SimCall.isMoveOrAnim, SimCall.target]
    intro c hc hm
    rw [htrace, List.mem_append] at hc
    rcases hc with hc | hc
    · simp only [gravityLoop, List.mem_map] at hc
      obtain ⟨i, _, rfl⟩ := hc
      simp [SimCall.isMoveOrAnim] at hm
    · exact htail c hc hm

/-- C7 at a concrete tick: three sprites, only `movingRight` set. -/
theorem C7_gravity_all_then_player_only_witness :
    0 < 3 ∧ ∃ sim rest,
      updateSimulation 3 10 (Globals.mk false false true) false = some sim ∧
      sim.trace = gravityLoop 3 ++ rest ∧
      (∀ i, i < 3 → sim.trace.count (SimCall.gravity i) = 1) ∧
      (∀ c ∈ sim.trace, c.isMoveOrAnim = true → c.target = some 0) :=
  ⟨by decide,
    (C7_gravity_all_then_player_only 3 10 (Globals.mk false false true) false
      (by decide)).elim
      (fun sim h => h.elim (fun rest h =>
        ⟨sim, rest, h.1, h.2.1, h.2.2.1, h.2.2.2.2.2.2.2⟩))⟩

/-- C10: on every tick with a non-empty `spriteList`, `Mix_PlayChannel(1,
walkSound, 0)` is issued exactly when exactly one movement intent is set and
channel 1 is not playing on entry; `Mix_HaltChannel(1)` is issued exactly when
the two intents are equal; and no tick issues both. -/
theorem C10_footstep_follows_moving (sprites : Nat) (playerSpeed : Int)
    (g : Globals) (playing : Bool) (hs : 0 < sprites) :
    ∃ sim, updateSimulation sprites playerSpeed g playing = some sim ∧
      (sim.trace.any SimCall.isStart = true ↔
        (g.movingLeft ≠ g.movingRight ∧ playing = false)) ∧
      (sim.trace.any SimCall.isHalt = true ↔ g.movingLeft = g.movingRight) ∧
      ¬ (sim.trace.any SimCall.isStart = true ∧ sim.trace.any SimCall.isHalt = true) ∧
      sim.trace.count (SimCall.Mix_PlayChannel 1 0) ≤ 1 := by
  obtain ⟨sim, rest, hsim, htrace, hrest⟩ :=
    updateSimulation_shape sprites playerSpeed g playing hs
  refine ⟨sim, hsim, ?_⟩
  subst hrest
  have hcount : (gravityLoop sprites).count (SimCall.Mix_PlayChannel 1 0) = 0 := by
    rw [List.count_eq_zero]
    simp [gravityLoop]
  simp only [htrace, List.any_append, gravityLoop_any_isStart, gravityLoop_any_isHalt,
    List.count_append, hcount]
  rcases g with ⟨d, l, r⟩
  cases l <;> cases r <;> cases playing <;>
    simp [SimCall.isStart, SimCall.isHalt, List.count_cons]

/-- C10 at a concrete tick: one sprite, only `movingRight` set, channel silent. -/
theorem C10_footstep_follows_moving_witness :
    0 < 1 ∧ ∃ sim, updateSimulation 1 10 (Globals.mk false false true) false = some sim ∧
      (sim.trace.any SimCall.isStart = true ↔
        ((Globals.mk false false true).movingLeft ≠
          (Globals.mk false false true).movingRight ∧ false = false)) :=
  ⟨by decide,
    (C10_footstep_follows_moving 1 10 (Globals.mk false false true) false
      (by decide)).elim (fun sim h => ⟨sim, h.1, h.2.1⟩)⟩

/-! ## Lemmas on handleInput and the frame loop -/

theorem handleInput_append (g : Globals) (xs ys : List SDL_Event) :
    handleInput g (xs ++ ys) = handleInput (handleInput g xs) ys := by
  simp [handleInput, List.foldl_append]

theorem handleInput_cons (g : Globals) (e : SDL_Event) (es : List SDL_Event) :
    handleInput g (e :: es) = handleInput (handleEvent g e) es := rfl

theorem handleEvent_done_mono (g : Globals) (e : SDL_Event) (h : g.done = true) :
    (handleEvent g e).done = true := by
  unfold handleEvent keyDownSwitch keyUpSwitch keyDownCaseD keyDownCaseA
  split_ifs <;> simp [h]

theorem handleInput_done_mono (events : List SDL_Event) :
    ∀ g : Globals, g.done = true → (handleInput g events).done = true := by
  induction events with
  | nil => intro g h; exact h
  | cons e es ih =>
    intro g h
    rw [handleInput_cons]
    exact ih _ (handleEvent_done_mono g e h)

theorem handleInput_quit (events : List SDL_Event) :
    ∀ g : Globals, (∃ e ∈ events, e.type = SDL_QUIT) →
      (handleInput g events).done = true := by
  induction events with
  | nil => intro g h; simp at h
  | cons e es ih =>
    intro g h
    rw [handleInput_cons]
    by_cases he : e.type = SDL_QUIT
    · apply handleInput_done_mono
      simp [handleEvent, he]
    · apply ih
      obtain ⟨x, hx, hq⟩ := h
      rcases List.mem_cons.mp hx with rfl | hx
      · exact absurd hq he
      · exact ⟨x, hx, hq⟩

theorem mainLoop_done (poll : Nat → List SDL_Event) (fuel iter : Nat) (g : Globals)
    (h : g.done = true) : mainLoop poll fuel iter g = some ([], g) := by
  unfold mainLoop
  simp [h]

theorem mainLoop_step (poll : Nat → List SDL_Event) (fuel iter : Nat) (g : Globals)
    (h : g.done = false) :
    mainLoop poll (fuel + 1) iter g =
      match mainLoop poll fuel (iter + 1) (handleInput g (poll iter)) with
      | none => none
      | some (calls, g2) =>
        some ([LoopCall.handleInput (poll iter),
               LoopCall.updateSimulation (handleInput g (poll iter)),
               LoopCall.render, LoopCall.fpsLimiter] ++ calls, g2) := by
  rw [mainLoop]
  simp [h]

theorem mainLoop_last_iteration (poll : Nat → List SDL_Event) (fuel iter : Nat)
    (g : Globals) (h : g.done = false)
    (hd : (handleInput g (poll iter)).done = true) :
    mainLoop poll (fuel + 1) iter g =
      some ([LoopCall.handleInput (poll iter),
             LoopCall.updateSimulation (handleInput g (poll iter)),
             LoopCall.render, LoopCall.fpsLimiter], handleInput g (poll iter)) := by
  rw [mainLoop_step poll fuel iter g h, mainLoop_done poll fuel (iter + 1) _ hd]
  rfl

theorem mainLoop_terminates (poll : Nat → List SDL_Event) :
    ∀ (n iter : Nat) (g : Globals), (∃ e ∈ poll (iter + n), e.type = SDL_QUIT) →
      ∃ r, mainLoop poll (n + 1) iter g = some r := by
  intro n
  induction n with
  | zero =>
    intro iter g hq
    cases hdone : g.done with
    | true => exact ⟨_, mainLoop_done poll _ iter g hdone⟩
    | false =>
      exact ⟨_, mainLoop_last_iteration poll 0 iter g hdone
        (handleInput_quit _ g (by simpa using hq))⟩
  | succ n ih =>
    intro iter g hq
    cases hdone : g.done with
    | true => exact ⟨_, mainLoop_done poll _ iter g hdone⟩
    | false =>
      have hq' : ∃ e ∈ poll (iter + 1 + n), e.type = SDL_QUIT := by
        have : iter + 1 + n = iter + (n + 1) := by omega
        rw [this]; exact hq
      obtain ⟨r, hr⟩ := ih (iter + 1) (handleInput g (poll iter)) hq'
      rw [mainLoop_step poll (n + 1) iter g hdone, hr]
      exact ⟨_, rfl⟩

theorem mainLoop_result (poll : Nat → List SDL_Event) :
    ∀ (fuel iter : Nat) (g : Globals) (calls : List LoopCall) (g2 : Globals),
      mainLoop poll fuel iter g = some (calls, g2) →
        g2.done = true ∧ ∃ k, calls.length = 4 * k := by
  intro fuel
  induction fuel with
  | zero =>
    intro iter g calls g2 h
    unfold mainLoop at h
    cases hdone : g.done with
    | true =>
      simp [hdone] at h
      obtain ⟨rfl, rfl⟩ := h
      exact ⟨hdone, 0, rfl⟩
    | false => simp [hdone] at h
  | succ fuel ih =>
    intro iter g calls g2 h
    cases hdone : g.done with
    | true =>
      rw [mainLoop_done poll _ iter g hdone] at h
      simp at h
      obtain ⟨rfl, rfl⟩ := h
      exact ⟨hdone, 0, rfl⟩
    | false =>
      rw [mainLoop_step poll fuel iter g hdone] at h
      cases hrec : mainLoop poll fuel (iter + 1) (handleInput g (poll iter)) with
      | none => simp [hrec] at h
      | some r =>
        obtain ⟨c, g3⟩ := r
        simp [hrec] at h
        obtain ⟨rfl, rfl⟩ := h
        obtain ⟨hd, k, hk⟩ := ih (iter + 1) _ c g3 hrec
        exact ⟨hd, k + 1, by simp [hk]; omega⟩

theorem raisesRight_iff (e : SDL_Event) :
    raisesRight e ↔ ∀ g : Globals, (handleEvent g e).movingRight = true := by
  constructor
  · rintro ⟨ht, hr, hk⟩ g
    rcases hk with hk | hk
    · simp [handleEvent, ht, hr, hk, keyDownSwitch, keyDownCaseD, SDL_KEYDOWN, SDL_QUIT]
    · simp [handleEvent, ht, hr, hk, keyDownSwitch, keyDownCaseD, SDL_KEYDOWN, SDL_QUIT,
        SDLK_d, SDLK_ESCAPE]
  · intro h
    have h0 := h ⟨false, false, false⟩
    unfold handleEvent keyDownSwitch keyUpSwitch keyDownCaseD keyDownCaseA at h0
    unfold raisesRight
    split_ifs at h0 <;> simp_all

theorem raisesLeft_iff (e : SDL_Event) :
    raisesLeft e ↔ ∀ g : Globals, (handleEvent g e).movingLeft = true := by
  constructor
  · rintro ⟨ht, hr, hk⟩ g
    simp [handleEvent, ht, hr, hk, keyDownSwitch, keyDownCaseA, SDL_KEYDOWN, SDL_QUIT,
      SDLK_d, SDLK_ESCAPE, SDLK_a]
  · intro h
    have h0 := h ⟨false, false, false⟩
    unfold handleEvent keyDownSwitch keyUpSwitch keyDownCaseD keyDownCaseA at h0
    unfold raisesLeft
    split_ifs at h0
    simp_all

theorem handleEvent_right_stays_clear (g : Globals) (e : SDL_Event)
    (hg : g.movingRight = false) (he : ¬ raisesRight e) :
    (handleEvent g e).movingRight = false := by
  unfold raisesRight at he
  unfold handleEvent keyDownSwitch keyUpSwitch keyDownCaseD keyDownCaseA
  split_ifs <;> simp_all

theorem handleEvent_left_stays_clear (g : Globals) (e : SDL_Event)
    (hg : g.movingLeft = false) (he : ¬ raisesLeft e) :
    (handleEvent g e).movingLeft = false := by
  unfold raisesLeft at he
  unfold handleEvent keyDownSwitch keyUpSwitch keyDownCaseD keyDownCaseA
  split_ifs <;> simp_all

theorem handleInput_right_stays_clear (events : List SDL_Event) :
    ∀ g : Globals, g.movingRight = false → (∀ x ∈ events, ¬ raisesRight x) →
      (handleInput g events).movingRight = false := by
  induction events with
  | nil => intro g hg _; exact hg
  | cons e es ih =>
    intro g hg h
    rw [handleInput_cons]
    exact ih _ (handleEvent_right_stays_clear g e hg (h e (List.mem_cons_self _ _)))
      (fun x hx => h x (List.mem_cons_of_mem _ hx))

theorem handleInput_left_stays_clear (events : List SDL_Event) :
    ∀ g : Globals, g.movingLeft = false → (∀ x ∈ events, ¬ raisesLeft x) →
      (handleInput g events).movingLeft = false := by
  induction events with
  | nil => intro g hg _; exact hg
  | cons e es ih =>
    intro g hg h
    rw [handleInput_cons]
    exact ih _ (handleEvent_left_stays_clear g e hg (h e (List.mem_cons_self _ _)))
      (fun x hx => h x (List.mem_cons_of_mem _ hx))

/-- Every `moveSprite` of a tick comes from the branch whose condition holds. -/
theorem updateSimulation_moves (sprites : Nat) (playerSpeed : Int) (g : Globals)
    (playing : Bool) (sim : Sim)
    (h : updateSimulation sprites playerSpeed g playing = some sim) :
    ∀ c ∈ sim.trace, c.isMove = true →
      (c = SimCall.moveSprite 0 (-playerSpeed) 0 ∧ condLeft g = true) ∨
      (c = SimCall.moveSprite 0 playerSpeed 0 ∧ condRight g = true) := by
  have hs : 0 < sprites := by
    rcases Nat.eq_zero_or_pos sprites with h0 | h0
    · simp [updateSimulation, h0] at h
    · exact h0
  obtain ⟨sim', rest, hsim, htrace, hrest⟩ :=
    updateSimulation_shape sprites playerSpeed g playing hs
  rw [h] at hsim
  cases hsim
  have htail : ∀ c ∈ SimCall.animateSprite 0 6 5 30 true :: rest, c.isMove = true →
      (c = SimCall.moveSprite 0 (-playerSpeed) 0 ∧ condLeft g = true) ∨
      (c = SimCall.moveSprite 0 playerSpeed 0 ∧ condRight g = true) := by
    subst hrest
    rcases g with ⟨d, l, r⟩
    cases l <;> cases r <;> cases playing <;>
      simp [SimCall.isMove, condLeft, condRight]
  intro c hc hm
  rw [htrace, List.mem_append] at hc
  rcases hc with hc | hc
  · simp only [gravityLoop, List.mem_map] at hc
    obtain ⟨i, _, rfl⟩ := hc
    simp [SimCall.isMove] at hm
  · exact htail c hc hm

/-! ## Claims on handleInput and the frame loop -/

/-- C4: a batch that contains an `SDL_QUIT` event leaves `done` true whatever
else the batch holds; `handleInput` never resets `done`; and an iteration
entered with `done` false in which `handleInput` sets it makes exactly the four
calls `handleInput`, `updateSimulation`, `render`, `fpsLimiter` and then the
loop ends. The loop is left only through the test at the top (entered with
`done` set it makes no call), it does end once a batch holds a quit event, and
whenever it ends its calls are whole iterations and `done` is true. -/
theorem C4_quit_completes_tick_then_exits (g : Globals) (events : List SDL_Event)
    (poll : Nat → List SDL_Event) (fuel iter : Nat) :
    ((∃ e ∈ events, e.type = SDL_QUIT) → (handleInput g events).done = true) ∧
    (g.done = true → (handleInput g events).done = true) ∧
    (g.done = false → (handleInput g (poll iter)).done = true →
      mainLoop poll (fuel + 1) iter g =
        some ([LoopCall.handleInput (poll iter),
               LoopCall.updateSimulation (handleInput g (poll iter)),
               LoopCall.render, LoopCall.fpsLimiter], handleInput g (poll iter))) ∧
    (g.done = true → mainLoop poll fuel iter g = some ([], g)) ∧
    ((∃ e ∈ poll (iter + fuel), e.type = SDL_QUIT) →
      ∃ r, mainLoop poll (fuel + 1) iter g = some r) ∧
    (∀ calls g2, mainLoop poll fuel iter g = some (calls, g2) →
      g2.done = true ∧ ∃ k, calls.length = 4 * k) :=
  ⟨handleInput_quit events g, handleInput_done_mono events g,
    mainLoop_last_iteration poll fuel iter g, mainLoop_done poll fuel iter g,
    mainLoop_terminates poll fuel iter g, mainLoop_result poll fuel iter g⟩

/-- C4 at a concrete run: a batch with a quit event between two key events, and
a loop whose first batch is that one. -/
theorem C4_quit_completes_tick_then_exits_witness :
    (handleInput Globals.init
      [⟨SDL_KEYDOWN, 0, SDLK_a⟩, ⟨SDL_QUIT, 0, 0⟩, ⟨SDL_KEYUP, 0, SDLK_a⟩]).done = true ∧
    mainLoop (fun _ => [⟨SDL_QUIT, 0, 0⟩]) 1 0 Globals.init =
      some ([LoopCall.handleInput [⟨SDL_QUIT, 0, 0⟩],
             LoopCall.updateSimulation ⟨true, false, false⟩,
             LoopCall.render, LoopCall.fpsLimiter], ⟨true, false, false⟩) :=
  ⟨(C4_quit_completes_tick_then_exits Globals.init
      [⟨SDL_KEYDOWN, 0, SDLK_a⟩, ⟨SDL_QUIT, 0, 0⟩, ⟨SDL_KEYUP, 0, SDLK_a⟩]
      (fun _ => []) 0 0).1 ⟨⟨SDL_QUIT, 0, 0⟩, by decide, rfl⟩,
   (C4_quit_completes_tick_then_exits Globals.init []
      (fun _ => [⟨SDL_QUIT, 0, 0⟩]) 0 0).2.2.1 rfl rfl⟩

/-- C8: a non-repeat key-down of d sets `movingRight` and a key-up of d clears
it, likewise a and `movingLeft`, each leaving the other two flags as they were;
a key-down flagged as a repeat changes nothing. Hence, if a batch holds a key-up
of d (of a) after which no event raises `movingRight` (`movingLeft`), the flag
is clear when `handleInput` returns and the next tick issues no `moveSprite`
other than possibly the one in the opposite direction. -/
theorem C8_flags_track_held_keys (g : Globals) (e : SDL_Event)
    (pre post : List SDL_Event) :
    (e.type = SDL_KEYDOWN → e.key_repeat = 0 → e.key_sym = SDLK_d →
      handleEvent g e = { g with movingRight := true }) ∧
    (e.type = SDL_KEYUP → e.key_sym = SDLK_d →
      handleEvent g e = { g with movingRight := false }) ∧
    (e.type = SDL_KEYDOWN → e.key_repeat = 0 → e.key_sym = SDLK_a →
      handleEvent g e = { g with movingLeft := true }) ∧
    (e.type = SDL_KEYUP → e.key_sym = SDLK_a →
      handleEvent g e = { g with movingLeft := false }) ∧
    (e.type = SDL_KEYDOWN → e.key_repeat ≠ 0 → handleEvent g e = g) ∧
    (e.type = SDL_KEYUP → e.key_sym = SDLK_d → (∀ x ∈ post, ¬ raisesRight x) →
      (handleInput g (pre ++ e :: post)).movingRight = false ∧
      ∀ sprites playerSpeed playing sim,
        updateSimulation sprites playerSpeed (handleInput g (pre ++ e :: post)) playing
          = some sim →
        ∀ c ∈ sim.trace, c.isMove = true → c = SimCall.moveSprite 0 (-playerSpeed) 0) ∧
    (e.type = SDL_KEYUP → e.key_sym = SDLK_a → (∀ x ∈ post, ¬ raisesLeft x) →
      (handleInput g (pre ++ e :: post)).movingLeft = false ∧
      ∀ sprites playerSpeed playing sim,
        updateSimulation sprites playerSpeed (handleInput g (pre ++ e :: post)) playing
          = some sim →
        ∀ c ∈ sim.trace, c.isMove = true → c = SimCall.moveSprite 0 playerSpeed 0) := by
  refine ⟨?_, ?_, ?_, ?_, ?_, ?_, ?_⟩
  · intro ht hr hk
    simp [handleEvent, ht, hr, hk, keyDownSwitch, keyDownCaseD, SDL_KEYDOWN, SDL_QUIT,
      SDLK_d, SDLK_ESCAPE]
  · intro ht hk
    simp [handleEvent, ht, hk, keyUpSwitch, SDL_KEYDOWN, SDL_KEYUP, SDL_QUIT]
  · intro ht hr hk
    simp [handleEvent, ht, hr, hk, keyDownSwitch, keyDownCaseA, SDL_KEYDOWN, SDL_QUIT,
      SDLK_d, SDLK_ESCAPE, SDLK_a]
  · intro ht hk
    simp [handleEvent, ht, hk, keyUpSwitch, SDL_KEYDOWN, SDL_KEYUP, SDL_QUIT, SDLK_d,
      SDLK_a]
  · intro ht hr
    simp [handleEvent, ht, hr, SDL_KEYDOWN, SDL_QUIT]
  · intro ht hk hpost
    have hclear : (handleInput g (pre ++ e :: post)).movingRight = false := by
      rw [handleInput_append, handleInput_cons]
      apply handleInput_right_stays_clear post _ _ hpost
      simp [handleEvent, ht, hk, keyUpSwitch, SDL_KEYDOWN, SDL_KEYUP, SDL_QUIT]
    refine ⟨hclear, ?_⟩
    intro sprites playerSpeed playing sim hsim c hc hm
    rcases updateSimulation_moves _ _ _ _ _ hsim c hc hm with ⟨h, _⟩ | ⟨_, h⟩
    · exact h
    · simp [condRight, hclear] at h
  · intro ht hk hpost
    have hclear : (handleInput g (pre ++ e :: post)).movingLeft = false := by
      rw [handleInput_append, handleInput_cons]
      apply handleInput_left_stays_clear post _ _ hpost
      simp [handleEvent, ht, hk, keyUpSwitch, SDL_KEYDOWN, SDL_KEYUP, SDL_QUIT, SDLK_d,
        SDLK_a]
    refine ⟨hclear, ?_⟩
    intro sprites playerSpeed playing sim hsim c hc hm
    rcases updateSimulation_moves _ _ _ _ _ hsim c hc hm with ⟨_, h⟩ | ⟨h, _⟩
    · simp [condLeft, hclear] at h
    · exact h

/-- C8 at a concrete batch: d pressed, d released, then a pressed; the right
intent is released at the end of the batch. -/
theorem C8_flags_track_held_keys_witness :
    handleEvent Globals.init ⟨SDL_KEYDOWN, 0, SDLK_d⟩ = ⟨false, false, true⟩ ∧
    handleEvent ⟨false, true, true⟩ ⟨SDL_KEYDOWN, 1, SDLK_d⟩ = ⟨false, true, true⟩ ∧
    (handleInput Globals.init
      ([⟨SDL_KEYDOWN, 0, SDLK_d⟩] ++ ⟨SDL_KEYUP, 0, SDLK_d⟩ ::
        [⟨SDL_KEYDOWN, 0, SDLK_a⟩])).movingRight = false :=
  ⟨(C8_flags_track_held_keys Globals.init ⟨SDL_KEYDOWN, 0, SDLK_d⟩ [] []).1 rfl rfl rfl,
   (C8_flags_track_held_keys ⟨false, true, true⟩ ⟨SDL_KEYDOWN, 1, SDLK_d⟩ [] []).2.2.2.2.1
      rfl (by decide),
   ((C8_flags_track_held_keys Globals.init ⟨SDL_KEYUP, 0, SDLK_d⟩
      [⟨SDL_KEYDOWN, 0, SDLK_d⟩] [⟨SDL_KEYDOWN, 0, SDLK_a⟩]).2.2.2.2.2.1
      rfl rfl (by decide)).1⟩

/-- C9: a non-repeat key-down of Escape sets `done` and, through the missing
`break`, also `movingRight`, leaving `movingLeft` as it was; when that event is
the batch of an iteration entered with `done` false, the iteration still runs
`updateSimulation` with those flags, and with `movingLeft` clear that tick
issues exactly one `moveSprite`, `(playerSpeed, 0)` on sprite 0. -/
theorem C9_escape_also_moves_right (g : Globals) (e : SDL_Event)
    (ht : e.type = SDL_KEYDOWN) (hr : e.key_repeat = 0) (hk : e.key_sym = SDLK_ESCAPE) :
    handleEvent g e = ⟨true, g.movingLeft, true⟩ ∧
    (∀ (poll : Nat → List SDL_Event) (fuel iter : Nat),
      g.done = false → poll iter = [e] →
      mainLoop poll (fuel + 1) iter g =
        some ([LoopCall.handleInput [e],
               LoopCall.updateSimulation ⟨true, g.movingLeft, true⟩,
               LoopCall.render, LoopCall.fpsLimiter], ⟨true, g.movingLeft, true⟩)) ∧
    (∀ (sprites : Nat) (playerSpeed : Int) (playing : Bool),
      0 < sprites → g.movingLeft = false →
      ∃ sim, updateSimulation sprites playerSpeed (handleEvent g e) playing = some sim ∧
        sim.trace.filter SimCall.isMove = [SimCall.moveSprite 0 playerSpeed 0] ∧
        sim.trace.filter SimCall.isSetIdle = []) := by
  have hev : handleEvent g e = ⟨true, g.movingLeft, true⟩ := by
    simp [handleEvent, ht, hr, hk, keyDownSwitch, keyDownCaseD, SDL_KEYDOWN, SDL_QUIT]
  refine ⟨hev, ?_, ?_⟩
  · intro poll fuel iter hd hp
    have hin : handleInput g (poll iter) = ⟨true, g.movingLeft, true⟩ := by
      rw [hp]; exact hev
    have := mainLoop_last_iteration poll fuel iter g hd (by rw [hin])
    rw [this, hin, hp]
  · intro sprites playerSpeed playing hs hl
    obtain ⟨sim, rest, hsim, htrace, hrest⟩ :=
      updateSimulation_shape sprites playerSpeed (handleEvent g e) playing hs
    refine ⟨sim, hsim, ?_⟩
    rw [hev] at hrest
    simp only [hl] at hrest
    subst hrest
    rw [htrace]
    constructor <;> cases playing <;>
      simp [List.filter_append, List.filter_cons, SimCall.isMove, SimCall.isSetIdle,
        gravityLoop, List.filter_eq_nil_iff]

/-- C9 at a concrete event: Escape pressed with no key held, one sprite, speed 10. -/
theorem C9_escape_also_moves_right_witness :
    handleEvent Globals.init ⟨SDL_KEYDOWN, 0, SDLK_ESCAPE⟩ = ⟨true, false, true⟩ ∧
    ∃ sim, updateSimulation 1 10 (handleEvent Globals.init ⟨SDL_KEYDOWN, 0, SDLK_ESCAPE⟩)
        false = some sim ∧
      sim.trace.filter SimCall.isMove = [SimCall.moveSprite 0 10 0] ∧
      sim.trace.filter SimCall.isSetIdle = [] :=
  ⟨(C9_escape_also_moves_right Globals.init ⟨SDL_KEYDOWN, 0, SDLK_ESCAPE⟩ rfl rfl rfl).1,
   (C9_escape_also_moves_right Globals.init ⟨SDL_KEYDOWN, 0, SDLK_ESCAPE⟩
      rfl rfl rfl).2.2 1 10 false (by decide) rfl⟩

/-! ## fpsLimiter -/

theorem fpsLimiter_within_budget (dt : Int) (h0 : 0 ≤ dt) (h1 : dt ≤ 16) :
    fpsLimiter dt = 16 - dt := by
  unfold fpsLimiter wrapSigned
  norm_num
  split_ifs <;> omega

theorem fpsLimiter_overrun_in_int_range (dt : Int) (h0 : 16 < dt)
    (h1 : dt ≤ 2 ^ 31 + 16) : fpsLimiter dt = 0 := by
  unfold fpsLimiter wrapSigned
  norm_num at h1 ⊢
  split_ifs <;> omega

theorem fpsLimiter_nonneg (dt : Int) : 0 ≤ fpsLimiter dt := by
  unfold fpsLimiter
  exact Int.emod_nonneg _ (by norm_num)

/-- C3: at `dt = 2147483665` ms (an overrun of `2^31 + 1` ms) the difference
`16 - dt = -2147483649` does not fit `int`; narrowed it is `2147483647`, which
is not negative, so `SDL_Delay` is called with `2147483647` and not with 0. -/
theorem C3_overrun_wraps_to_long_delay :
    (16 : Int) < 2147483665 ∧ 2147483665 < (2 : Int) ^ 63 ∧
    wrapSigned 64 (16 - 2147483665) = -2147483649 ∧
    wrapSigned 32 (-2147483649) = 2147483647 ∧
    fpsLimiter 2147483665 = 2147483647 ∧ fpsLimiter 2147483665 ≠ 0 := by
  refine ⟨by norm_num, by norm_num, ?_, ?_, ?_, ?_⟩ <;>
    norm_num [fpsLimiter, wrapSigned]

/-! ## TextBox: textures owned by one label -/

theorem ownedLive_of_wf (r : Renderer) (hwf : r.wf) : ownedLive r.next r = [] := by
  unfold ownedLive
  rw [List.filter_eq_nil_iff]
  intro h hh
  have := hwf h hh
  simp
  omega

theorem create_owned (base : Nat) (ok : Bool) (r : Renderer) (hwf : r.wf)
    (hb : base ≤ r.next) (he : ownedLive base r = []) :
    (SDL_CreateTextureFromSurface ok r).2.wf ∧
    base ≤ (SDL_CreateTextureFromSurface ok r).2.next ∧
    ownedLive base (SDL_CreateTextureFromSurface ok r).2 =
      (SDL_CreateTextureFromSurface ok r).1.toList := by
  cases ok
  · exact ⟨hwf, hb, by simpa [SDL_CreateTextureFromSurface] using he⟩
  · refine ⟨?_, ?_, ?_⟩
    · intro h hh
      simp only [SDL_CreateTextureFromSurface, if_true, List.mem_cons] at hh ⊢
      rcases hh with rfl | hh
      · omega
      · have := hwf h hh
        omega
    · simp only [SDL_CreateTextureFromSurface, if_true]
      omega
    · unfold ownedLive at he ⊢
      simp [SDL_CreateTextureFromSurface, List.filter_cons, hb, he]

theorem destroy_owned (base : Nat) (t : Option Nat) (r : Renderer) (hwf : r.wf)
    (hb : base ≤ r.next) (he : ownedLive base r = t.toList) :
    (SDL_DestroyTexture t r).wf ∧ base ≤ (SDL_DestroyTexture t r).next ∧
    ownedLive base (SDL_DestroyTexture t r) = [] := by
  cases t with
  | none => exact ⟨hwf, hb, by simpa [SDL_DestroyTexture] using he⟩
  | some h =>
    refine ⟨?_, hb, ?_⟩
    · intro x hx
      exact hwf x (List.mem_of_mem_erase hx)
    · unfold ownedLive at he ⊢
      simp only [SDL_DestroyTexture]
      rw [← List.erase_filter, he]
      simp

theorem setTextHistory_owned (base : Nat) (calls : List (String × Bool)) :
    ∀ (tb : TextBox) (r : Renderer), r.wf → base ≤ r.next →
      ownedLive base r = tb.messageTexture.toList →
      ∀ pr ∈ setTextHistory tb r calls,
        (ownedLive base pr.2).length ≤ 1 ∧
        (pr.1 = Point.destroyed → ownedLive base pr.2 = []) := by
  induction calls with
  | nil => intro tb r _ _ _ pr hpr; simp [setTextHistory] at hpr
  | cons c rest ih =>
    intro tb r hwf hb he pr hpr
    obtain ⟨s, ok⟩ := c
    obtain ⟨hwf1, hb1, he1⟩ := destroy_owned base tb.messageTexture r hwf hb he
    obtain ⟨hwf2, hb2, he2⟩ :=
      create_owned base ok (SDL_DestroyTexture tb.messageTexture r) hwf1 hb1 he1
    simp only [setTextHistory, TextBox.setTextMid, TextBox.setText, List.mem_cons] at hpr
    rcases hpr with rfl | rfl | hpr
    · simp [he1]
    · refine ⟨?_, by simp⟩
      rw [he2]
      cases (SDL_CreateTextureFromSurface ok (SDL_DestroyTexture tb.messageTexture r)).1 <;>
        simp
    · exact ih _ _ hwf2 hb2 he2 pr hpr

/-- C5: for a `TextBox` built by the four-argument constructor on a well-formed
texture table, and every sequence of `setText` calls on it (each with any new
text, each texture creation succeeding or failing), the label owns at most one
live texture at every point: after the constructor, after the destroy inside
each `setText`, and after the create inside each `setText`; after the destroy
it owns none, so the old texture is gone before the new one is made. -/
theorem C5_label_owns_at_most_one_texture (r0 : Renderer) (s0 : String) (ok0 : Bool)
    (calls : List (String × Bool)) (hwf : r0.wf) :
    ∀ pr ∈ textBoxHistory r0 s0 ok0 calls,
      (ownedLive r0.next pr.2).length ≤ 1 ∧
      (pr.1 = Point.destroyed → ownedLive r0.next pr.2 = []) := by
  intro pr hpr
  obtain ⟨hwf1, hb1, he1⟩ :=
    create_owned r0.next ok0 r0 hwf (Nat.le_refl _) (ownedLive_of_wf r0 hwf)
  simp only [textBoxHistory, TextBox.mk4, List.mem_cons] at hpr
  rcases hpr with rfl | hpr
  · refine ⟨?_, by simp⟩
    rw [he1]
    cases (SDL_CreateTextureFromSurface ok0 r0).1 <;> simp
  · exact setTextHistory_owned r0.next calls _ _ hwf1 hb1 he1 pr hpr

/-- C5 at a concrete label: a table with one foreign texture, the constructor
and three `setText` calls, the second of which fails to create its texture. -/
theorem C5_label_owns_at_most_one_texture_witness :
    (Renderer.mk 3 [1]).wf ∧
    ∀ pr ∈ textBoxHistory (Renderer.mk 3 [1]) "a" true
        [("b", true), ("c", false), ("d", true)],
      (ownedLive 3 pr.2).length ≤ 1 ∧
      (pr.1 = Point.destroyed → ownedLive 3 pr.2 = []) :=
  ⟨by intro h hh; simp at hh; subst hh; decide,
   C5_label_owns_at_most_one_texture (Renderer.mk 3 [1]) "a" true
     [("b", true), ("c", false), ("d", true)]
     (by intro h hh; simp at hh; subst hh; decide)⟩

/-! ## Teardown -/

/-- C6, as stated, fails on the normal exit path (every start-up call succeeds):
the font is acquired and never released, and the releases are renderer, window,
chunk, music, audio, SDL, which is not the reverse of the acquisition order
(the renderer, acquired before both sounds, is released before them). -/
theorem C6_teardown_is_not_reverse_acquisition :
    acquired (main Startup.allOk) =
      [Res.sdl, Res.audio, Res.window, Res.renderer, Res.ttf, Res.font, Res.music,
       Res.chunk] ∧
    released (main Startup.allOk) =
      [Res.renderer, Res.window, Res.chunk, Res.music, Res.audio, Res.sdl] ∧
    Res.font ∈ acquired (main Startup.allOk) ∧
    Res.font ∉ released (main Startup.allOk) ∧
    released (main Startup.allOk) ≠
      ((acquired (main Startup.allOk)).filter (fun r => decide (r ≠ Res.ttf))).reverse ∧
    released (main Startup.allOk) ≠
      ((acquired (main Startup.allOk)).filter
        (fun r => decide (r ≠ Res.ttf ∧ r ≠ Res.font))).reverse := by
  decide

/-- C6 amended: on every path of `main` (each start-up outcome), the trace ends
in `exit`, with code 0 exactly when every start-up call succeeded; teardown
releases, in this fixed order, the renderer if acquired, the window if
acquired, the footstep chunk if acquired, the music if acquired, then the audio
subsystem (`Mix_Quit`) and SDL (`SDL_Quit`); so each of window, renderer, music
and chunk acquired so far is released exactly once, `Mix_Quit` and `SDL_Quit`
are each called exactly once, and nothing is released twice. -/
theorem C6_teardown_fixed_order (o : Startup) :
    released (main o) =
      (if Res.renderer ∈ acquired (main o) then [Res.renderer] else []) ++
      (if Res.window ∈ acquired (main o) then [Res.window] else []) ++
      (if Res.chunk ∈ acquired (main o) then [Res.chunk] else []) ++
      (if Res.music ∈ acquired (main o) then [Res.music] else []) ++
      [Res.audio, Res.sdl] ∧
    (∀ r ∈ [Res.window, Res.renderer, Res.music, Res.chunk],
      r ∈ acquired (main o) → (released (main o)).count r = 1) ∧
    (main o).count SysCall.Mix_Quit = 1 ∧ (main o).count SysCall.SDL_Quit = 1 ∧
    (released (main o)).Nodup ∧
    (main o).getLast? =
      some (SysCall.exit (if o.sdlInit && o.openAudio && o.createWindow &&
        o.createRenderer && o.ttfInit && o.openFont && o.loadMUS && o.loadWAV
        then 0 else 1)) := by
  rcases o with ⟨a, b, c, d, e, f, g, h⟩
  cases a <;> cases b <;> cases c <;> cases d <;> cases e <;> cases f <;>
    cases g <;> cases h <;> decide

/-- C6 amended, at the path on which `TTF_OpenFont` fails: the window and the
renderer, acquired by then, are each released once, renderer first. -/
theorem C6_teardown_fixed_order_witness :
    released (main ⟨true, true, true, true, true, false, false, false⟩) =
      (if Res.renderer ∈ acquired (main ⟨true, true, true, true, true, false, false, false⟩)
        then [Res.renderer] else []) ++
      (if Res.window ∈ acquired (main ⟨true, true, true, true, true, false, false, false⟩)
        then [Res.window] else []) ++
      (if Res.chunk ∈ acquired (main ⟨true, true, true, true, true, false, false, false⟩)
        then [Res.chunk] else []) ++
      (if Res.music ∈ acquired (main ⟨true, true, true, true, true, false, false, false⟩)
        then [Res.music] else []) ++
      [Res.audio, Res.sdl] ∧
    (released (main ⟨true, true, true, true, true, false, false, false⟩)).count
      Res.window = 1 :=
  ⟨(C6_teardown_fixed_order ⟨true, true, true, true, true, false, false, false⟩).1,
   (C6_teardown_fixed_order ⟨true, true, true, true, true, false, false, false⟩).2.1
      Res.window (by decide) (by decide)⟩

end ChuckyEgg
